import Mathlib

/-!
Verification of the incremental batch-ingestion loader (`loader.py`) and its
file-serving collaborator (`batch_api/app.py`).

The embedding is shallow: CSV payloads parsed by pandas are modelled as
rectangular frames of cell values, the Snowflake table as a list of rows
plus the health flags of the run's single shared connection, and the two
HTTP endpoints of the Flask app as Lean functions from the served files.
Exceptions are modelled with `Except`; the `except Exception` handler of
`ingest_batch` is the `Except`-eliminating wrapper `ingest_batch`.
-/

set_option maxHeartbeats 1000000

namespace ApiDataIngestion

/-- A cell value in a tabular payload or in the warehouse table.  Cells
parsed from CSV by pandas are modelled as integer or string values. -/
inductive Value where
  | vInt (n : Int)
  | vStr (s : String)
deriving DecidableEq

/-- A parsed tabular payload (a pandas DataFrame): column names and rows.
Frames produced by CSV parsing are rectangular, recorded by `wf`. -/
structure DataFrame where
  columns : List String
  rows : List (List Value)
  wf : ∀ r ∈ rows, r.length = columns.length

/-- Drop leading and trailing whitespace characters, modelling Python
`str.strip` on the character ranges that occur here. -/
def stripChars (cs : List Char) : List Char :=
  ((cs.dropWhile Char.isWhitespace).reverse.dropWhile Char.isWhitespace).reverse

/-- Model of Python `str.strip`. -/
def pyStrip (s : String) : String :=
  String.mk (stripChars s.data)

/-- Model of Python `str.upper` (ASCII letters). -/
def pyUpper (s : String) : String :=
  String.mk (s.data.map Char.toUpper)

/-- Decimal value of a digit list. -/
def digitsVal (cs : List Char) : Nat :=
  cs.foldl (fun a c => a * 10 + (c.toNat - 48)) 0

/-- Model of Python `int(...)` applied to a string: optional surrounding
whitespace, an optional sign, then at least one decimal digit; anything
else raises `ValueError`, modelled as `none`. -/
def pyInt? (s : String) : Option Int :=
  match stripChars s.data with
  | [] => none
  | c :: cs =>
    if c = '+' then
      if cs ≠ [] ∧ cs.all Char.isDigit then some (digitsVal cs) else none
    else if c = '-' then
      if cs ≠ [] ∧ cs.all Char.isDigit then some (-(digitsVal cs : Int)) else none
    else
      if (c :: cs).all Char.isDigit then some (digitsVal (c :: cs)) else none

/-- An HTTP response as the loader sees it: status code, parsed CSV body
when the body parses as a table, and the error description if any. -/
structure HttpResponse where
  status : Nat
  body : Option DataFrame
  description : String

/-- The Batch Source service's files: the parsed contents of
`batch_list.csv` and of each `data/<id>.csv` (absent file = `none`). -/
structure BatchSource where
  listFile : Option DataFrame
  dataFiles : String → Option DataFrame

/-- `app.py`, endpoint `GET /api/batches/batch_list.csv`: serves the batch
list file; a missing or unreadable file is a server error. -/
def serve_batch_list (src : BatchSource) : HttpResponse :=
  match src.listFile with
  | some df => ⟨200, some df, ""⟩
  | none => ⟨500, none, "Internal Server Error"⟩

/-- `app.py`, `get_batch_data`: 404 when `data/<batch_id>.csv` is absent,
otherwise the file is served. -/
def get_batch_data (src : BatchSource) (batch_id : String) : HttpResponse :=
  match src.dataFiles batch_id with
  | some df => ⟨200, some df, ""⟩
  | none => ⟨404, none, "Batch data not found"⟩

/-- The warehouse table plus health flags of the run's single shared
connection: `readFails` models a connection/query failure during the
pre-loop `SELECT DISTINCT`, `writeFails` models the connection being lost
before the bulk writes happen. -/
structure TableStore where
  rows : List (List Value)
  readFails : Bool
  writeFails : Bool
deriving DecidableEq

/-- `row[0]`: the `BATCH_ID` column of a stored row. -/
def batchIdOf (row : List Value) : Value := row.getD 0 (Value.vStr "")

/-- Errors that escape to the top level of `loader.py` uncaught. -/
inductive FatalError where
  | connError
  | httpError (status : Nat) (description : String)
  | parseError
  | missingColumn (name : String)
  | intError (s : String)
deriving DecidableEq

/-- Errors raised inside `ingest_batch`'s `try` block. -/
inductive IngestError where
  | httpError (status : Nat) (description : String)
  | parseError
  | intParseError
  | missingColumn (name : String)
  | writeError
deriving DecidableEq

/-- `loader.get_loaded_batches`: `SELECT DISTINCT BATCH_ID FROM ORDERS`,
returned as a set (here: list without duplicates).  No handler — a
connection or query error propagates. -/
def get_loaded_batches (store : TableStore) : Except FatalError (List Value) :=
  if store.readFails then .error .connError
  else .ok ((store.rows.map batchIdOf).dedup)

/-- pandas `astype(str)` on one cell. -/
def astypeStr : Value → String
  | .vInt n => toString n
  | .vStr s => s

/-- `loader.get_batch_ids`: GET the batch list, `raise_for_status`, parse
the CSV, return column `batch_id` as strings.  No handler — any error
propagates. -/
def get_batch_ids (src : BatchSource) : Except FatalError (List String) :=
  if 400 ≤ (serve_batch_list src).status then
    .error (.httpError (serve_batch_list src).status (serve_batch_list src).description)
  else match (serve_batch_list src).body with
    | none => .error .parseError
    | some df =>
      if "batch_id" ∈ df.columns then
        .ok (df.rows.map (fun row =>
          astypeStr (row.getD (df.columns.indexOf "batch_id") (Value.vStr ""))))
      else .error (.missingColumn "batch_id")

/-- `df.columns = [col.strip().upper() for col in df.columns]`. -/
def normalizeColumns (df : DataFrame) : DataFrame where
  columns := df.columns.map (fun c => pyUpper (pyStrip c))
  rows := df.rows
  wf := by intro r hr; rw [List.length_map]; exact df.wf r hr

/-- pandas column assignment `df[name] = v` on one row: overwrite the cell
of every column called `name`. -/
def setRow (cols : List String) (name : String) (v : Value) (r : List Value) : List Value :=
  List.zipWith (fun c x => if c = name then v else x) cols r

/-- pandas column assignment `df[name] = v`: overwrite the column when it
exists, otherwise append it on the right. -/
def setColumn (df : DataFrame) (name : String) (v : Value) : DataFrame :=
  if name ∈ df.columns then
    { columns := df.columns
      rows := df.rows.map (setRow df.columns name v)
      wf := by
        intro r hr
        obtain ⟨a, ha, rfl⟩ := List.mem_map.mp hr
        simp [setRow, df.wf a ha] }
  else
    { columns := df.columns ++ [name]
      rows := df.rows.map (fun r => r ++ [v])
      wf := by
        intro r hr
        obtain ⟨a, ha, rfl⟩ := List.mem_map.mp hr
        simp [df.wf a ha] }

/-- pandas `df[[names]]`: select the named columns in the given order; a
missing name raises `KeyError`, surfaced as a missing-column error. -/
def selectColumns (df : DataFrame) (names : List String) : Except IngestError DataFrame :=
  match names.find? (fun nm => !(df.columns.contains nm)) with
  | some missing => .error (.missingColumn missing)
  | none =>
    .ok { columns := names
          rows := df.rows.map (fun r =>
            names.map (fun nm => r.getD (df.columns.indexOf nm) (Value.vStr "")))
          wf := by
            intro r hr
            obtain ⟨a, ha, rfl⟩ := List.mem_map.mp hr
            simp }

/-- `write_pandas(conn, sel, table_name=TABLE_NAME)`: one bulk append of the
selected rows; fails when the connection has been lost. -/
def write_pandas (store : TableStore) (df : DataFrame) : Except IngestError TableStore :=
  if store.writeFails then .error .writeError
  else .ok { store with rows := store.rows ++ df.rows }

/-- The body of `loader.ingest_batch`'s `try` block: fetch the payload,
`raise_for_status`, parse the CSV, normalize column names, attach
`BATCH_ID = int(batch_id)`, select `[BATCH_ID, ORDER_ID, AMOUNT]`,
bulk-write, and report `len(df)`. -/
def ingest_batch_core (src : BatchSource) (store : TableStore) (batch_id : String) :
    Except IngestError (Nat × TableStore) :=
  if 400 ≤ (get_batch_data src batch_id).status then
    .error (.httpError (get_batch_data src batch_id).status
      (get_batch_data src batch_id).description)
  else match (get_batch_data src batch_id).body with
    | none => .error .parseError
    | some df =>
      match pyInt? batch_id with
      | none => .error .intParseError
      | some b =>
        match selectColumns (setColumn (normalizeColumns df) "BATCH_ID" (Value.vInt b))
            ["BATCH_ID", "ORDER_ID", "AMOUNT"] with
        | .error e => .error e
        | .ok sel =>
          match write_pandas store sel with
          | .error e => .error e
          | .ok store1 =>
            .ok ((setColumn (normalizeColumns df) "BATCH_ID" (Value.vInt b)).rows.length, store1)

/-- Per-batch decision recorded by the run. -/
inductive BatchOutcome where
  | skipped
  | ingested (count : Nat)
  | failed (e : IngestError)
deriving DecidableEq

/-- `loader.ingest_batch`: the `try` block plus its `except Exception`
handler; a failure is logged and the store is left as it was. -/
def ingest_batch (src : BatchSource) (store : TableStore) (batch_id : String) :
    BatchOutcome × TableStore :=
  match ingest_batch_core src store batch_id with
  | .ok (n, store1) => (.ingested n, store1)
  | .error e => (.failed e, store)

/-- Outcome of one run: the per-identifier decisions in source order, the
final table state, and the fatal error that aborted the run, if any. -/
structure RunResult where
  outcomes : List (String × BatchOutcome)
  store : TableStore
  fatal : Option FatalError
deriving DecidableEq

/-- The `for batch_id in get_batch_ids():` loop of `loader.__main__`.
`int(batch_id)` is evaluated outside any handler, so its failure aborts
the loop; membership in the pre-computed loaded set decides skip/ingest. -/
def main_loop (src : BatchSource) (loaded : List Value) :
    List String → TableStore → RunResult
  | [], store => ⟨[], store, none⟩
  | batch_id :: ids, store =>
    match pyInt? batch_id with
    | none => ⟨[], store, some (.intError batch_id)⟩
    | some n =>
      if Value.vInt n ∈ loaded then
        let r := main_loop src loaded ids store
        ⟨(batch_id, .skipped) :: r.outcomes, r.store, r.fatal⟩
      else
        let p := ingest_batch src store batch_id
        let r := main_loop src loaded ids p.2
        ⟨(batch_id, p.1) :: r.outcomes, r.store, r.fatal⟩

/-- `loader.__main__`: read the loaded set, discover the catalog, loop. -/
def main_run (src : BatchSource) (store : TableStore) : RunResult :=
  match get_loaded_batches store with
  | .error e => ⟨[], store, some e⟩
  | .ok loaded =>
    match get_batch_ids src with
    | .error e => ⟨[], store, some e⟩
    | .ok ids => main_loop src loaded ids store

/-! ### Concrete scenarios

Small Batch Source catalogs and table states used to instantiate the
testable properties of the specification. -/

/-- A one-row payload whose column names carry stray whitespace/casing. -/
def dfOrders1 : DataFrame :=
  ⟨[" order_id ", "Amount"], [[Value.vStr "o1", Value.vStr "7.5"]], by decide⟩

/-- A clean two-row payload. -/
def dfOrders2 : DataFrame :=
  ⟨["order_id", "amount"],
   [[Value.vStr "o2", Value.vInt 3], [Value.vStr "o3", Value.vInt 4]], by decide⟩

def dfList1 : DataFrame := ⟨["batch_id"], [[Value.vInt 1]], by decide⟩

def dfList12 : DataFrame := ⟨["batch_id"], [[Value.vInt 1], [Value.vInt 2]], by decide⟩

def dfList123 : DataFrame :=
  ⟨["batch_id"], [[Value.vInt 1], [Value.vInt 2], [Value.vInt 3]], by decide⟩

/-- Catalog `[1, 2, 3]` with the data file for batch `2` missing. -/
def srcGap2 : BatchSource :=
  ⟨some dfList123,
   fun i => if i = "1" then some dfOrders1 else if i = "3" then some dfOrders2 else none⟩

/-- Catalog `[1]` with no data files at all. -/
def srcEmpty : BatchSource := ⟨some dfList1, fun _ => none⟩

/-- Catalog `[1, 2]` with data for both batches. -/
def srcAll12 : BatchSource :=
  ⟨some dfList12,
   fun i => if i = "1" then some dfOrders1 else if i = "2" then some dfOrders2 else none⟩

/-- A Batch Source whose batch-list file is missing. -/
def srcNoList : BatchSource := ⟨none, fun _ => none⟩

def dfList101112 : DataFrame :=
  ⟨["batch_id"], [[Value.vInt 10], [Value.vInt 11], [Value.vInt 12]], by decide⟩

/-- Catalog `[10, 11, 12]` with data only for batch `12`. -/
def src12 : BatchSource :=
  ⟨some dfList101112, fun i => if i = "12" then some dfOrders2 else none⟩

/-- A table already holding one order row each for batches `10` and `11`. -/
def storeLoaded1011 : TableStore :=
  ⟨[[Value.vInt 10, Value.vStr "oA", Value.vStr "1.0"],
    [Value.vInt 11, Value.vStr "oB", Value.vStr "2.0"]], false, false⟩

def src5 : BatchSource := ⟨none, fun i => if i = "5" then some dfOrders1 else none⟩

def src7 : BatchSource := ⟨none, fun i => if i = "7" then some dfOrders1 else none⟩

/-- The frame `df[["BATCH_ID", "ORDER_ID", "AMOUNT"]]` selected from
`dfOrders1` after normalization and `df["BATCH_ID"] = 7`. -/
def wSel7 : DataFrame :=
  ⟨["BATCH_ID", "ORDER_ID", "AMOUNT"],
   [[Value.vInt 7, Value.vStr "o1", Value.vStr "7.5"]], by decide⟩

def store0 : TableStore := ⟨[], false, false⟩

def storeReadFail : TableStore := ⟨[], true, false⟩

def storeWriteFail : TableStore := ⟨[], false, true⟩

/-! ### Structural lemmas about the frame operations -/

theorem setRow_getD (name : String) (v : Value) :
    ∀ (cols : List String) (r : List Value), name ∈ cols → r.length = cols.length →
      (setRow cols name v r).getD (cols.indexOf name) (Value.vStr "") = v := by
  intro cols
  induction cols with
  | nil => intro r hmem _; cases hmem
  | cons c cs ih =>
    intro r hmem hlen
    cases r with
    | nil => simp at hlen
    | cons x xs =>
      by_cases hc : c = name
      · subst hc
        simp [setRow, List.indexOf_cons]
      · have hmem' : name ∈ cs := by
          rcases List.mem_cons.mp hmem with h | h

          · exact absurd h.symm hc
          · exact h
        have hbeq : (c == name) = false := by simp [hc]
        simp only [setRow, List.zipWith_cons_cons, List.indexOf_cons, hbeq, cond_false,
          if_neg hc, List.getD_cons_succ]
        simpa [setRow] using ih xs hmem' (by simpa using hlen)

theorem getD_append_len (l : List Value) (v d : Value) : (l ++ [v]).getD l.length d = v := by
  rw [List.getD_eq_getElem?_getD, List.getElem?_append_right (le_refl l.length)]
  simp

/-- After `df[name] = v`, every row carries `v` in the (first) column called
`name`. -/
theorem setColumn_cell (df : DataFrame) (name : String) (v : Value) :
    ∀ a ∈ (setColumn df name v).rows,
      a.getD ((setColumn df name v).columns.indexOf name) (Value.vStr "") = v := by
  intro a ha
  by_cases hmem : name ∈ df.columns
  · rw [setColumn, if_pos hmem] at ha ⊢
    obtain ⟨r, hr, rfl⟩ := List.mem_map.mp ha
    exact setRow_getD name v df.columns r hmem (df.wf r hr)
  · rw [setColumn, if_neg hmem] at ha ⊢
    obtain ⟨r, hr, rfl⟩ := List.mem_map.mp ha
    show (r ++ [v]).getD ((df.columns ++ [name]).indexOf name) (Value.vStr "") = v
    rw [List.indexOf_append_of_not_mem hmem]
    simp only [List.indexOf_cons, beq_self_eq_true, cond_true, Nat.add_zero]
    rw [← df.wf r hr]
    exact getD_append_len r v _

theorem selectColumns_ok (df : DataFrame) (names : List String) (sel : DataFrame)
    (h : selectColumns df names = .ok sel) :
    sel.columns = names ∧
    sel.rows = df.rows.map (fun r =>
      names.map (fun nm => r.getD (df.columns.indexOf nm) (Value.vStr ""))) ∧
    ∀ nm ∈ names, nm ∈ df.columns := by
  rw [selectColumns] at h
  cases hf : names.find? (fun nm => !(df.columns.contains nm)) with
  | some missing => rw [hf] at h; simp at h
  | none =>
    rw [hf] at h
    injection h with h1
    subst h1
    refine ⟨rfl, rfl, ?_⟩
    intro nm hnm
    have := List.find?_eq_none.mp hf nm hnm
    simpa using this

/-- Every row selected after `df["BATCH_ID"] = vInt b` has `vInt b` as its
first (`BATCH_ID`) cell. -/
theorem sel_rows_batch (df : DataFrame) (b : Int) (sel : DataFrame) (rest : List String)
    (h : selectColumns (setColumn df "BATCH_ID" (Value.vInt b)) ("BATCH_ID" :: rest) = .ok sel) :
    ∀ r ∈ sel.rows, batchIdOf r = Value.vInt b := by
  obtain ⟨hc, hr, hmem⟩ := selectColumns_ok _ _ _ h
  intro r hrr
  rw [hr] at hrr
  obtain ⟨a, ha, rfl⟩ := List.mem_map.mp hrr
  rw [batchIdOf]
  simp only [List.map_cons, List.getD_cons_zero]
  exact setColumn_cell df "BATCH_ID" (Value.vInt b) a ha

theorem selectColumns_rows_length (df : DataFrame) (names : List String) (sel : DataFrame)
    (h : selectColumns df names = .ok sel) : sel.rows.length = df.rows.length := by
  obtain ⟨_, hr, _⟩ := selectColumns_ok _ _ _ h
  rw [hr, List.length_map]

theorem setColumn_rows_length (df : DataFrame) (name : String) (v : Value) :
    (setColumn df name v).rows.length = df.rows.length := by
  rw [setColumn]
  split <;> simp

theorem normalizeColumns_rows (df : DataFrame) : (normalizeColumns df).rows = df.rows := rfl

/-! ### Characterization of `ingest_batch` -/

/-- Success of the `try` block of `ingest_batch`, fully characterized. -/
theorem ingest_batch_core_ok (src : BatchSource) (store : TableStore) (id : String)
    (n : Nat) (store1 : TableStore) :
    ingest_batch_core src store id = .ok (n, store1) ↔
      ∃ df sel b,
        (get_batch_data src id).status < 400 ∧
        (get_batch_data src id).body = some df ∧
        pyInt? id = some b ∧
        selectColumns (setColumn (normalizeColumns df) "BATCH_ID" (Value.vInt b))
          ["BATCH_ID", "ORDER_ID", "AMOUNT"] = .ok sel ∧
        store.writeFails = false ∧
        n = df.rows.length ∧
        store1 = { store with rows := store.rows ++ sel.rows } := by
  constructor
  · intro h
    rw [ingest_batch_core] at h
    by_cases h4 : 400 ≤ (get_batch_data src id).status
    · rw [if_pos h4] at h; simp at h
    · rw [if_neg h4] at h
      cases hb : (get_batch_data src id).body with
      | none => rw [hb] at h; simp at h
      | some df =>
        rw [hb] at h
        dsimp only at h
        cases hi : pyInt? id with
        | none => rw [hi] at h; simp at h
        | some b =>
          rw [hi] at h
          dsimp only at h
          cases hs : selectColumns (setColumn (normalizeColumns df) "BATCH_ID" (Value.vInt b))
              ["BATCH_ID", "ORDER_ID", "AMOUNT"] with
          | error e => rw [hs] at h; simp at h
          | ok sel =>
            rw [hs] at h
            dsimp only at h
            rw [write_pandas] at h
            cases hw : store.writeFails with
            | true => rw [hw] at h; simp at h
            | false =>
              rw [hw] at h
              simp only [Bool.false_eq_true, if_false, Except.ok.injEq, Prod.mk.injEq] at h
              refine ⟨df, sel, b, Nat.lt_of_not_le h4, rfl, rfl, hs, rfl, ?_, h.2.symm⟩
              rw [← h.1, setColumn_rows_length, normalizeColumns_rows]
  · rintro ⟨df, sel, b, h4, hb, hi, hs, hw, rfl, rfl⟩
    rw [ingest_batch_core, if_neg (Nat.not_le.mpr h4), hb]
    dsimp only
    rw [hi]
    dsimp only
    rw [hs]
    dsimp only
    rw [write_pandas, hw]
    simp only [Bool.false_eq_true, if_false, Except.ok.injEq, Prod.mk.injEq]
    exact ⟨by rw [setColumn_rows_length, normalizeColumns_rows], trivial⟩

theorem ingest_batch_fst_ne_skipped (src : BatchSource) (store : TableStore) (id : String) :
    (ingest_batch src store id).1 ≠ .skipped := by
  rw [ingest_batch]
  cases h : ingest_batch_core src store id <;> simp

/-- The `except` handler leaves the store alone on failure, and a success is
a single bulk append: the final store always extends the initial one. -/
theorem ingest_batch_snd (src : BatchSource) (store : TableStore) (id : String) :
    ∃ extra, (ingest_batch src store id).2 = { store with rows := store.rows ++ extra } := by
  rw [ingest_batch]
  cases h : ingest_batch_core src store id with
  | error e => exact ⟨[], by simp⟩
  | ok p =>
    obtain ⟨n, store1⟩ := p
    obtain ⟨df, sel, b, _, _, _, _, _, _, hstore⟩ := (ingest_batch_core_ok src store id n store1).mp h
    exact ⟨sel.rows, by simpa using hstore⟩

/-- A run with a dropped write connection: every ingest attempt fails and is
contained, leaving the store untouched. -/
theorem ingest_batch_writeFails (src : BatchSource) (store : TableStore) (id : String)
    (hw : store.writeFails = true) :
    ∃ e, ingest_batch src store id = (.failed e, store) := by
  cases h : ingest_batch_core src store id with
  | error e => exact ⟨e, by rw [ingest_batch, h]⟩
  | ok p =>
    obtain ⟨n, store1⟩ := p
    obtain ⟨_, _, _, _, _, _, _, hw', _, _⟩ := (ingest_batch_core_ok src store id n store1).mp h
    rw [hw] at hw'
    cases hw'

/-- An `ingested c` outcome comes from a successful `try` block reporting
`c`. -/
theorem ingest_batch_ingested (src : BatchSource) (store : TableStore) (id : String) (c : Nat)
    (h : (ingest_batch src store id).1 = .ingested c) :
    ingest_batch_core src store id = .ok (c, (ingest_batch src store id).2) := by
  rw [ingest_batch] at h ⊢
  cases hc : ingest_batch_core src store id with
  | error e => rw [hc] at h; dsimp only at h; simp at h
  | ok p =>
    obtain ⟨n, store1⟩ := p
    rw [hc] at h
    dsimp only at h ⊢
    cases h
    rfl

/-! ### Lemmas about the orchestrator loop -/

/-- The loop only ever appends rows to the table and never touches the
connection flags. -/
theorem main_loop_store (src : BatchSource) (loaded : List Value) :
    ∀ (ids : List String) (store : TableStore),
      ∃ extra, (main_loop src loaded ids store).store =
        { store with rows := store.rows ++ extra } := by
  intro ids
  induction ids with
  | nil => intro store; exact ⟨[], by simp [main_loop]⟩
  | cons id ids ih =>
    intro store
    cases hi : pyInt? id with
    | none => exact ⟨[], by simp [main_loop, hi]⟩
    | some n =>
      by_cases hm : Value.vInt n ∈ loaded
      · obtain ⟨extra, hx⟩ := ih store
        exact ⟨extra, by simp only [main_loop, hi, if_pos hm]; exact hx⟩
      · obtain ⟨e1, h1⟩ := ingest_batch_snd src store id
        obtain ⟨e2, h2⟩ := ih (ingest_batch src store id).2
        refine ⟨e1 ++ e2, ?_⟩
        simp only [main_loop, hi, if_neg hm]
        rw [h2, h1]
        simp

/-- When every identifier parses as an integer, the loop never aborts and
records one outcome per identifier, in order. -/
theorem main_loop_complete (src : BatchSource) (loaded : List Value) :
    ∀ (ids : List String) (store : TableStore), (∀ id ∈ ids, (pyInt? id).isSome) →
      (main_loop src loaded ids store).fatal = none ∧
      (main_loop src loaded ids store).outcomes.map Prod.fst = ids := by
  intro ids
  induction ids with
  | nil => intro store _; exact ⟨rfl, rfl⟩
  | cons id ids ih =>
    intro store hall
    obtain ⟨n, hi⟩ := Option.isSome_iff_exists.mp (hall id (List.mem_cons_self id ids))
    have hrest : ∀ x ∈ ids, (pyInt? x).isSome :=
      fun x hx => hall x (List.mem_cons_of_mem id hx)
    by_cases hm : Value.vInt n ∈ loaded
    · obtain ⟨hf, ho⟩ := ih store hrest
      simp only [main_loop, hi, if_pos hm]
      exact ⟨hf, by simp [ho]⟩
    · obtain ⟨hf, ho⟩ := ih (ingest_batch src store id).2 hrest
      simp only [main_loop, hi, if_neg hm]
      exact ⟨hf, by simp [ho]⟩

/-- An identifier's outcome is `skipped` exactly when its integer value is
a member of the pre-loop loaded set. -/
theorem main_loop_skip_iff (src : BatchSource) (loaded : List Value) :
    ∀ (ids : List String) (store : TableStore),
      (main_loop src loaded ids store).fatal = none →
      ∀ e ∈ (main_loop src loaded ids store).outcomes,
        (e.2 = .skipped ↔ ∃ m, pyInt? e.1 = some m ∧ Value.vInt m ∈ loaded) := by
  intro ids
  induction ids with
  | nil => intro store _ e he; cases he
  | cons id ids ih =>
    intro store hfat e he
    cases hi : pyInt? id with
    | none => rw [main_loop, hi] at hfat; cases hfat
    | some n =>
      by_cases hm : Value.vInt n ∈ loaded
      · rw [main_loop, hi] at hfat he
        simp only [if_pos hm] at hfat he
        rcases List.mem_cons.mp he with rfl | htail
        · exact ⟨fun _ => ⟨n, hi, hm⟩, fun _ => rfl⟩
        · exact ih store hfat e htail
      · rw [main_loop, hi] at hfat he
        simp only [if_neg hm] at hfat he
        rcases List.mem_cons.mp he with rfl | htail
        · constructor
          · intro hsk; exact absurd hsk (ingest_batch_fst_ne_skipped src store id)
          · rintro ⟨m, him, hmm⟩
            rw [hi] at him
            injection him with him
            subst him
            exact absurd hmm hm
        · exact ih (ingest_batch src store id).2 hfat e htail

/-- When every identifier's integer value is already in the loaded set, the
loop is a pure skip pass: no write, no error. -/
theorem main_loop_all_skip (src : BatchSource) (loaded : List Value) :
    ∀ (ids : List String) (store : TableStore),
      (∀ id ∈ ids, ∃ m, pyInt? id = some m ∧ Value.vInt m ∈ loaded) →
      main_loop src loaded ids store = ⟨ids.map (fun id => (id, .skipped)), store, none⟩ := by
  intro ids
  induction ids with
  | nil => intro store _; rfl
  | cons id ids ih =>
    intro store hall
    obtain ⟨m, hi, hm⟩ := hall id (List.mem_cons_self id ids)
    have hrest := fun x hx => hall x (List.mem_cons_of_mem id hx)
    simp only [main_loop, hi, if_pos hm]
    rw [ih store hrest]
    simp

/-- A successful ingest of a positive number of rows leaves the batch's
integer identifier present in the table's `BATCH_ID` column. -/
theorem ingest_batch_ingested_mem (src : BatchSource) (store : TableStore) (id : String)
    (c : Nat) (h : (ingest_batch src store id).1 = .ingested c) (hpos : 0 < c) :
    ∃ m, pyInt? id = some m ∧
      Value.vInt m ∈ (ingest_batch src store id).2.rows.map batchIdOf := by
  have hcore := ingest_batch_ingested src store id c h
  obtain ⟨df, sel, b, _, _, hi, hs, _, hc, hstore⟩ :=
    (ingest_batch_core_ok src store id c (ingest_batch src store id).2).mp hcore
  refine ⟨b, hi, ?_⟩
  have hlen : sel.rows.length = c := by
    rw [selectColumns_rows_length _ _ _ hs, setColumn_rows_length, normalizeColumns_rows, ← hc]
  have hne : sel.rows ≠ [] := by
    intro hnil
    rw [hnil] at hlen
    simp at hlen
    omega
  obtain ⟨r0, hr0⟩ := List.exists_mem_of_ne_nil sel.rows hne
  have hbid := sel_rows_batch _ b sel _ hs r0 hr0
  rw [hstore]
  simp only [List.map_append, List.mem_append]
  exact Or.inr (List.mem_map.mpr ⟨r0, hr0, hbid⟩)

/-- After a clean first pass (no fatal error, no failed batch, every ingest
wrote at least one row), every discovered identifier's integer value ends up
either in the pre-loop loaded set or in the final table. -/
theorem main_loop_covers (src : BatchSource) (loaded : List Value) :
    ∀ (ids : List String) (store : TableStore),
      (main_loop src loaded ids store).fatal = none →
      (∀ e ∈ (main_loop src loaded ids store).outcomes, ∀ err, e.2 ≠ .failed err) →
      (∀ e ∈ (main_loop src loaded ids store).outcomes, ∀ c, e.2 = .ingested c → 0 < c) →
      ∀ id ∈ ids, ∃ m, pyInt? id = some m ∧
        (Value.vInt m ∈ loaded ∨
          Value.vInt m ∈ (main_loop src loaded ids store).store.rows.map batchIdOf) := by
  intro ids
  induction ids with
  | nil => intro store _ _ _ id hid; cases hid
  | cons id0 ids ih =>
    intro store hfat hnf hpos id hid
    cases hi : pyInt? id0 with
    | none => rw [main_loop, hi] at hfat; cases hfat
    | some n =>
      by_cases hm : Value.vInt n ∈ loaded
      · rw [main_loop, hi] at hfat hnf hpos ⊢
        simp only [if_pos hm] at hfat hnf hpos ⊢
        rcases List.mem_cons.mp hid with rfl | hid'
        · exact ⟨n, hi, Or.inl hm⟩
        · exact ih store hfat
            (fun e he err => hnf e (List.mem_cons_of_mem _ he) err)
            (fun e he c hc => hpos e (List.mem_cons_of_mem _ he) c hc) id hid'
      · rw [main_loop, hi] at hfat hnf hpos ⊢
        simp only [if_neg hm] at hfat hnf hpos ⊢
        rcases List.mem_cons.mp hid with rfl | hid'
        · cases hp : (ingest_batch src store id).1 with
          | skipped => exact absurd hp (ingest_batch_fst_ne_skipped src store id)
          | failed e =>
            exact absurd hp (hnf (id, (ingest_batch src store id).1)
              (List.mem_cons_self _ _) e)
          | ingested c =>
            have hcpos := hpos (id, (ingest_batch src store id).1)
              (List.mem_cons_self _ _) c hp
            obtain ⟨m, him, hmem⟩ := ingest_batch_ingested_mem src store id c hp hcpos
            refine ⟨m, him, Or.inr ?_⟩
            obtain ⟨extra, hx⟩ := main_loop_store src loaded ids (ingest_batch src store id).2
            rw [hx]
            simp only [List.map_append, List.mem_append]
            exact Or.inl hmem
        · exact ih (ingest_batch src store id0).2 hfat
            (fun e he err => hnf e (List.mem_cons_of_mem _ he) err)
            (fun e he c hc => hpos e (List.mem_cons_of_mem _ he) c hc) id hid'

/-- With the write connection lost, the loop still runs to completion: every
identifier is skipped or recorded failed, and the table is untouched. -/
theorem main_loop_writeFails (src : BatchSource) (loaded : List Value) :
    ∀ (ids : List String) (store : TableStore), store.writeFails = true →
      (∀ id ∈ ids, (pyInt? id).isSome) →
      (main_loop src loaded ids store).store = store ∧
      (main_loop src loaded ids store).fatal = none ∧
      ∀ e ∈ (main_loop src loaded ids store).outcomes,
        e.2 = .skipped ∨ ∃ err, e.2 = .failed err := by
  intro ids
  induction ids with
  | nil => intro store _ _; exact ⟨rfl, rfl, fun e he => absurd he (List.not_mem_nil e)⟩
  | cons id ids ih =>
    intro store hw hall
    obtain ⟨n, hi⟩ := Option.isSome_iff_exists.mp (hall id (List.mem_cons_self id ids))
    have hrest := fun x hx => hall x (List.mem_cons_of_mem id hx)
    by_cases hm : Value.vInt n ∈ loaded
    · obtain ⟨hst, hfat, hout⟩ := ih store hw hrest
      rw [main_loop, hi]
      simp only [if_pos hm]
      refine ⟨hst, hfat, fun e he => ?_⟩
      rcases List.mem_cons.mp he with rfl | htail
      · exact Or.inl rfl
      · exact hout e htail
    · obtain ⟨err, herr⟩ := ingest_batch_writeFails src store id hw
      obtain ⟨hst, hfat, hout⟩ := ih store hw hrest
      rw [main_loop, hi]
      simp only [if_neg hm, herr]
      refine ⟨hst, hfat, fun e he => ?_⟩
      rcases List.mem_cons.mp he with rfl | htail
      · exact Or.inr ⟨err, rfl⟩
      · exact hout e htail

/-- A non-integer identifier aborts the loop at its position: the preceding
identifiers each got an outcome, nothing at or after the bad identifier is
processed. -/
theorem main_loop_abort (src : BatchSource) (loaded : List Value) (bad : String)
    (rest : List String) (hbad : pyInt? bad = none) :
    ∀ (pre : List String) (store : TableStore), (∀ id ∈ pre, (pyInt? id).isSome) →
      (main_loop src loaded (pre ++ bad :: rest) store).fatal =
        some (.intError bad) ∧
      (main_loop src loaded (pre ++ bad :: rest) store).outcomes.map Prod.fst = pre := by
  intro pre
  induction pre with
  | nil => intro store _; rw [List.nil_append, main_loop, hbad]; exact ⟨rfl, rfl⟩
  | cons id pre ih =>
    intro store hall
    obtain ⟨n, hi⟩ := Option.isSome_iff_exists.mp (hall id (List.mem_cons_self id pre))
    have hrest := fun x hx => hall x (List.mem_cons_of_mem id hx)
    rw [List.cons_append, main_loop, hi]
    by_cases hm : Value.vInt n ∈ loaded
    · obtain ⟨hfat, hout⟩ := ih store hrest
      simp only [if_pos hm]
      exact ⟨hfat, by simp [hout]⟩
    · obtain ⟨hfat, hout⟩ := ih (ingest_batch src store id).2 hrest
      simp only [if_neg hm]
      exact ⟨hfat, by simp [hout]⟩

/-! ### Lemmas about `main_run` -/

theorem main_run_readFails (src : BatchSource) (store : TableStore)
    (h : store.readFails = true) :
    main_run src store = ⟨[], store, some .connError⟩ := by
  rw [main_run, get_loaded_batches, h]
  rfl

theorem main_run_listFail (src : BatchSource) (store : TableStore)
    (h : store.readFails = false) (e : FatalError) (he : get_batch_ids src = .error e) :
    main_run src store = ⟨[], store, some e⟩ := by
  rw [main_run, get_loaded_batches, h]
  simp only [Bool.false_eq_true, if_false]
  rw [he]

theorem main_run_ok (src : BatchSource) (store : TableStore) (ids : List String)
    (h : store.readFails = false) (hi : get_batch_ids src = .ok ids) :
    main_run src store = main_loop src ((store.rows.map batchIdOf).dedup) ids store := by
  rw [main_run, get_loaded_batches, h]
  simp only [Bool.false_eq_true, if_false]
  rw [hi]

/-! ### The claims -/

/-- C1: per-batch isolation.  Whenever every discovered identifier parses as
an integer, the orchestrator loop runs to exhaustion of the list — no error
raised inside `ingest_batch` (fetch, status check, parse, normalization,
selection or bulk write) can abort it, because the handler contains them —
and one outcome is recorded per identifier, in order.  The witness
instantiates the spec's example: identifiers `[1,2,3]` with batch 2's fetch
returning a non-success status, where 1 and 3 are ingested and 2 is
recorded as failed. -/
theorem claim_C1_per_batch_isolation (src : BatchSource) (loaded : List Value)
    (ids : List String) (store : TableStore)
    (h : ∀ id ∈ ids, (pyInt? id).isSome) :
    (main_loop src loaded ids store).fatal = none ∧
    (main_loop src loaded ids store).outcomes.map Prod.fst = ids :=
  main_loop_complete src loaded ids store h

theorem claim_C1_witness :
    (main_loop srcGap2 [] ["1", "2", "3"] store0).outcomes =
      [("1", .ingested 1), ("2", .failed (.httpError 404 "Batch data not found")),
       ("3", .ingested 2)] ∧
    (∀ id ∈ ["1", "2", "3"], (pyInt? id).isSome) ∧
    ((main_loop srcGap2 [] ["1", "2", "3"] store0).fatal = none ∧
     (main_loop srcGap2 [] ["1", "2", "3"] store0).outcomes.map Prod.fst = ["1", "2", "3"]) :=
  ⟨by decide, by decide,
   claim_C1_per_batch_isolation srcGap2 [] ["1", "2", "3"] store0 (by decide)⟩

/-- C3: skip correctness.  In a run that does not abort, an identifier's
outcome is `skipped` exactly when its integer value (via `int(batch_id)`)
is a member of the loaded set returned by `get_loaded_batches` — membership
is decided between integer values, so the string identifier and the stored
integer compare equal.  Otherwise `ingest_batch` was invoked, giving
`ingested` or `failed`.  The witness instantiates the spec's example:
loaded set `{10, 11}` and identifiers `["10","11","12"]`, where only `12`
is ingested. -/
theorem claim_C3_skip_correctness (src : BatchSource) (store : TableStore)
    (loaded : List Value)
    (hl : get_loaded_batches store = .ok loaded)
    (h : (main_run src store).fatal = none) :
    ∀ e ∈ (main_run src store).outcomes,
      (e.2 = .skipped ↔ ∃ m, pyInt? e.1 = some m ∧ Value.vInt m ∈ loaded) := by
  have hrf : store.readFails = false := by
    cases hx : store.readFails with
    | true => rw [get_loaded_batches, hx] at hl; cases hl
    | false => rfl
  have hload : loaded = (store.rows.map batchIdOf).dedup := by
    rw [get_loaded_batches, hrf] at hl
    simp only [Bool.false_eq_true, if_false, Except.ok.injEq] at hl
    exact hl.symm
  cases hgi : get_batch_ids src with
  | error e => rw [main_run_listFail src store hrf e hgi] at h; cases h
  | ok ids =>
    rw [main_run_ok src store ids hrf hgi] at h ⊢
    rw [hload]
    exact main_loop_skip_iff src ((store.rows.map batchIdOf).dedup) ids store h

theorem claim_C3_witness :
    (main_run src12 storeLoaded1011).outcomes =
      [("10", .skipped), ("11", .skipped), ("12", .ingested 2)] ∧
    (get_loaded_batches storeLoaded1011 = .ok [Value.vInt 10, Value.vInt 11]) ∧
    (main_run src12 storeLoaded1011).fatal = none ∧
    (∀ e ∈ (main_run src12 storeLoaded1011).outcomes,
      (e.2 = .skipped ↔ ∃ m, pyInt? e.1 = some m ∧
        Value.vInt m ∈ [Value.vInt 10, Value.vInt 11])) :=
  ⟨by decide, rfl, by decide,
   claim_C3_skip_correctness src12 storeLoaded1011 [Value.vInt 10, Value.vInt 11]
     rfl (by decide)⟩

/-- C4: row-count result.  The `try` block of `ingest_batch` plays the role
of `ingest(id) -> Result<RowCount, IngestError>`: when it succeeds with
count `n`, the outcome is `ingested n`, the count equals the number of data
rows of the fetched payload, and exactly that many rows were appended to
the table. -/
theorem claim_C4_row_count (src : BatchSource) (store : TableStore) (id : String)
    (n : Nat) (store1 : TableStore)
    (h : ingest_batch_core src store id = .ok (n, store1)) :
    ingest_batch src store id = (.ingested n, store1) ∧
    ∃ df, (get_batch_data src id).body = some df ∧ n = df.rows.length ∧
      store1.rows.length = store.rows.length + n := by
  constructor
  · rw [ingest_batch, h]
  · obtain ⟨df, sel, b, _, hb, _, hs, _, hn, hst⟩ :=
      (ingest_batch_core_ok src store id n store1).mp h
    refine ⟨df, hb, hn, ?_⟩
    rw [hst]
    simp only [List.length_append]
    rw [selectColumns_rows_length _ _ _ hs, setColumn_rows_length, normalizeColumns_rows, hn]

theorem claim_C4_witness :
    (ingest_batch_core srcAll12 store0 "1" =
      .ok (1, ⟨[[Value.vInt 1, Value.vStr "o1", Value.vStr "7.5"]], false, false⟩)) ∧
    (ingest_batch srcAll12 store0 "1" =
      (.ingested 1, ⟨[[Value.vInt 1, Value.vStr "o1", Value.vStr "7.5"]], false, false⟩) ∧
     ∃ df, (get_batch_data srcAll12 "1").body = some df ∧ 1 = df.rows.length ∧
      (⟨[[Value.vInt 1, Value.vStr "o1", Value.vStr "7.5"]], false, false⟩ :
        TableStore).rows.length = store0.rows.length + 1) :=
  ⟨rfl, claim_C4_row_count srcAll12 store0 "1" 1
    ⟨[[Value.vInt 1, Value.vStr "o1", Value.vStr "7.5"]], false, false⟩ rfl⟩

/-- C5: column normalization.  On the success path of `ingest_batch` every
column name of the payload is trimmed and upper-cased before anything is
stored; the frame written is exactly the columns
`[BATCH_ID, ORDER_ID, AMOUNT]` in that order, appended in one bulk write;
and a payload from which that selection fails (missing required column)
yields a contained per-batch error, leaving the store untouched.  The
witness runs the spec's example payload with columns `" order_id "` and
`"Amount"`, stored keyed by `ORDER_ID` and `AMOUNT`. -/
theorem claim_C5_column_normalization (src : BatchSource) (store : TableStore)
    (id : String) (df : DataFrame) (b : Int)
    (h4 : (get_batch_data src id).status < 400)
    (hb : (get_batch_data src id).body = some df)
    (hi : pyInt? id = some b)
    (hw : store.writeFails = false) :
    (normalizeColumns df).columns = df.columns.map (fun c => pyUpper (pyStrip c)) ∧
    (∀ sel, selectColumns (setColumn (normalizeColumns df) "BATCH_ID" (Value.vInt b))
        ["BATCH_ID", "ORDER_ID", "AMOUNT"] = .ok sel →
      ingest_batch src store id =
        (.ingested df.rows.length, { store with rows := store.rows ++ sel.rows }) ∧
      sel.columns = ["BATCH_ID", "ORDER_ID", "AMOUNT"]) ∧
    (∀ e, selectColumns (setColumn (normalizeColumns df) "BATCH_ID" (Value.vInt b))
        ["BATCH_ID", "ORDER_ID", "AMOUNT"] = .error e →
      ingest_batch src store id = (.failed e, store)) := by
  refine ⟨rfl, ?_, ?_⟩
  · intro sel hs
    refine ⟨?_, (selectColumns_ok _ _ _ hs).1⟩
    have hcore : ingest_batch_core src store id =
        .ok (df.rows.length, { store with rows := store.rows ++ sel.rows }) :=
      (ingest_batch_core_ok src store id df.rows.length _).mpr
        ⟨df, sel, b, h4, hb, hi, hs, hw, rfl, rfl⟩
    rw [ingest_batch, hcore]
  · intro e hs
    rw [ingest_batch, ingest_batch_core, if_neg (Nat.not_le.mpr h4), hb]
    dsimp only
    rw [hi]
    dsimp only
    rw [hs]

theorem claim_C5_witness :
    ((get_batch_data src7 "7").status < 400) ∧
    ((get_batch_data src7 "7").body = some dfOrders1) ∧
    (pyInt? "7" = some 7) ∧
    (store0.writeFails = false) ∧
    ((normalizeColumns dfOrders1).columns = ["ORDER_ID", "AMOUNT"]) ∧
    (selectColumns (setColumn (normalizeColumns dfOrders1) "BATCH_ID" (Value.vInt 7))
      ["BATCH_ID", "ORDER_ID", "AMOUNT"] = .ok wSel7) ∧
    (wSel7.rows = [[Value.vInt 7, Value.vStr "o1", Value.vStr "7.5"]]) ∧
    (ingest_batch src7 store0 "7" =
      (.ingested dfOrders1.rows.length, { store0 with rows := store0.rows ++ wSel7.rows }) ∧
     wSel7.columns = ["BATCH_ID", "ORDER_ID", "AMOUNT"]) :=
  ⟨by decide, rfl, by decide, rfl, by decide, rfl, rfl,
   (claim_C5_column_normalization src7 store0 "7" dfOrders1 7
      (by decide) rfl (by decide) rfl).2.1 wSel7 rfl⟩

/-- C6, counterexample.  The claim says a write that fails because the
connection is lost aborts the run.  It does not: with the connection to the
store lost after the pre-loop read (`writeFails`), the run over catalog
`[1, 2]` completes with no fatal error — both batches' write failures are
caught inside `ingest_batch` and recorded as `failed`. -/
theorem claim_C6_counterexample :
    (main_run srcAll12 storeWriteFail).fatal = none ∧
    (main_run srcAll12 storeWriteFail).outcomes =
      [("1", .failed .writeError), ("2", .failed .writeError)] := by decide

/-- C6, amended.  A connection lost before the writes makes every
non-skipped batch fail, but each failure is contained inside
`ingest_batch`: the loop still runs to exhaustion with no fatal error, the
table is untouched, and every identifier is skipped or recorded failed.
(Only the pre-loop loaded-set read can abort on connection loss, which is
C7's subject.) -/
theorem claim_C6_amended_contained (src : BatchSource) (loaded : List Value)
    (ids : List String) (store : TableStore)
    (hw : store.writeFails = true)
    (h : ∀ id ∈ ids, (pyInt? id).isSome) :
    (main_loop src loaded ids store).store = store ∧
    (main_loop src loaded ids store).fatal = none ∧
    ∀ e ∈ (main_loop src loaded ids store).outcomes,
      e.2 = .skipped ∨ ∃ err, e.2 = .failed err :=
  main_loop_writeFails src loaded ids store hw h

theorem claim_C6_witness :
    (storeWriteFail.writeFails = true) ∧
    (∀ id ∈ ["1", "2"], (pyInt? id).isSome) ∧
    ((main_loop srcAll12 [] ["1", "2"] storeWriteFail).store = storeWriteFail ∧
     (main_loop srcAll12 [] ["1", "2"] storeWriteFail).fatal = none ∧
     ∀ e ∈ (main_loop srcAll12 [] ["1", "2"] storeWriteFail).outcomes,
       e.2 = .skipped ∨ ∃ err, e.2 = .failed err) :=
  ⟨rfl, by decide,
   claim_C6_amended_contained srcAll12 [] ["1", "2"] storeWriteFail rfl (by decide)⟩

/-- C7: fatal pre-loop errors.  A connection/query error while reading the
loaded set makes the run abort with no outcome recorded and the store
untouched; likewise, when the read succeeds, any error from
`get_batch_ids` (non-success response or malformed payload) aborts the run
before any batch is ingested. -/
theorem claim_C7_fatal_preloop (src : BatchSource) (store : TableStore) :
    (store.readFails = true → main_run src store = ⟨[], store, some .connError⟩) ∧
    (store.readFails = false → ∀ e, get_batch_ids src = .error e →
      main_run src store = ⟨[], store, some e⟩) :=
  ⟨fun h => main_run_readFails src store h,
   fun h e he => main_run_listFail src store h e he⟩

theorem claim_C7_witness :
    (storeReadFail.readFails = true) ∧
    (main_run srcAll12 storeReadFail = ⟨[], storeReadFail, some .connError⟩) ∧
    (store0.readFails = false) ∧
    (get_batch_ids srcNoList = .error (.httpError 500 "Internal Server Error")) ∧
    (main_run srcNoList store0 =
      ⟨[], store0, some (.httpError 500 "Internal Server Error")⟩) :=
  ⟨rfl, (claim_C7_fatal_preloop srcAll12 storeReadFail).1 rfl, rfl, rfl,
   (claim_C7_fatal_preloop srcNoList store0).2 rfl
     (.httpError 500 "Internal Server Error") rfl⟩

/-- C8: not-found handling.  For an identifier with no data file, the
server answers 404 with description `Batch data not found`; on the loader
side `raise_for_status` turns this into an error carrying that status and
description, which the handler of `ingest_batch` contains: the batch is
recorded `failed` with the 404 visible in the failure, the store is
untouched, and a loop over this and further identifiers still completes. -/
theorem claim_C8_not_found (src : BatchSource) (store : TableStore) (id : String)
    (h : src.dataFiles id = none) :
    (get_batch_data src id).status = 404 ∧
    (get_batch_data src id).description = "Batch data not found" ∧
    ingest_batch src store id = (.failed (.httpError 404 "Batch data not found"), store) ∧
    (∀ loaded rest, (∀ x ∈ id :: rest, (pyInt? x).isSome) →
      (main_loop src loaded (id :: rest) store).fatal = none) := by
  have hresp : get_batch_data src id = ⟨404, none, "Batch data not found"⟩ := by
    rw [get_batch_data, h]
  refine ⟨by rw [hresp], by rw [hresp], ?_, ?_⟩
  · rw [ingest_batch, ingest_batch_core, hresp]
    rfl
  · intro loaded rest hall
    exact (main_loop_complete src loaded (id :: rest) store hall).1

theorem claim_C8_witness :
    (srcGap2.dataFiles "2" = none) ∧
    ((get_batch_data srcGap2 "2").status = 404 ∧
     (get_batch_data srcGap2 "2").description = "Batch data not found" ∧
     ingest_batch srcGap2 store0 "2" =
       (.failed (.httpError 404 "Batch data not found"), store0) ∧
     (∀ loaded rest, (∀ x ∈ "2" :: rest, (pyInt? x).isSome) →
       (main_loop srcGap2 loaded ("2" :: rest) store0).fatal = none)) :=
  ⟨rfl, claim_C8_not_found srcGap2 store0 "2" rfl⟩

/-- C9: the skip check's `int(batch_id)` runs outside any handler.  If any
discovered identifier fails integer conversion, the run aborts right
there: the earlier identifiers each have an outcome, the bad identifier
and everything after it get none (neither is ever passed to
`ingest_batch`).  When every identifier is an integer-valued string, this
abort branch is unreachable. -/
theorem claim_C9_int_conversion_abort (src : BatchSource) (loaded : List Value)
    (store : TableStore) :
    (∀ (pre : List String) (bad : String) (rest : List String),
      pyInt? bad = none → (∀ id ∈ pre, (pyInt? id).isSome) →
      (main_loop src loaded (pre ++ bad :: rest) store).fatal = some (.intError bad) ∧
      (main_loop src loaded (pre ++ bad :: rest) store).outcomes.map Prod.fst = pre) ∧
    (∀ (ids : List String), (∀ id ∈ ids, (pyInt? id).isSome) →
      (main_loop src loaded ids store).fatal = none) :=
  ⟨fun pre bad rest hbad hall => main_loop_abort src loaded bad rest hbad pre store hall,
   fun ids hall => (main_loop_complete src loaded ids store hall).1⟩

theorem claim_C9_witness :
    (pyInt? "x" = none) ∧
    (∀ id ∈ ["1"], (pyInt? id).isSome) ∧
    ((main_loop srcAll12 [] (["1"] ++ "x" :: ["2"]) store0).fatal =
       some (.intError "x") ∧
     (main_loop srcAll12 [] (["1"] ++ "x" :: ["2"]) store0).outcomes.map Prod.fst = ["1"]) ∧
    (∀ id ∈ ["1", "2"], (pyInt? id).isSome) ∧
    ((main_loop srcAll12 [] ["1", "2"] store0).fatal = none) :=
  ⟨by decide, by decide,
   (claim_C9_int_conversion_abort srcAll12 [] store0).1 ["1"] "x" ["2"] (by decide) (by decide),
   by decide,
   (claim_C9_int_conversion_abort srcAll12 [] store0).2 ["1", "2"] (by decide)⟩

/-- C10: the loaded set is read once, before the loop, and never refreshed
as batches are ingested; hence a duplicated identifier whose integer value
is not in that pre-loop set is ingested once per occurrence — the second
occurrence is not skipped even though the first just wrote its rows, and
the selected rows are appended once per occurrence. -/
theorem claim_C10_duplicate_ingest (src : BatchSource) (loaded : List Value)
    (store : TableStore) (id : String) (n : Int) (df sel : DataFrame)
    (rest : List String)
    (hi : pyInt? id = some n) (hm : Value.vInt n ∉ loaded)
    (h4 : (get_batch_data src id).status < 400)
    (hb : (get_batch_data src id).body = some df)
    (hs : selectColumns (setColumn (normalizeColumns df) "BATCH_ID" (Value.vInt n))
      ["BATCH_ID", "ORDER_ID", "AMOUNT"] = .ok sel)
    (hw : store.writeFails = false) :
    main_loop src loaded (id :: id :: rest) store =
      { main_loop src loaded rest
          { store with rows := store.rows ++ sel.rows ++ sel.rows } with
        outcomes := (id, .ingested df.rows.length) :: (id, .ingested df.rows.length) ::
          (main_loop src loaded rest
            { store with rows := store.rows ++ sel.rows ++ sel.rows }).outcomes } := by
  have hcore1 : ingest_batch_core src store id =
      .ok (df.rows.length, { store with rows := store.rows ++ sel.rows }) :=
    (ingest_batch_core_ok src store id df.rows.length _).mpr
      ⟨df, sel, n, h4, hb, hi, hs, hw, rfl, rfl⟩
  have hib1 : ingest_batch src store id =
      (.ingested df.rows.length, { store with rows := store.rows ++ sel.rows }) := by
    rw [ingest_batch, hcore1]
  have hcore2 : ingest_batch_core src { store with rows := store.rows ++ sel.rows } id =
      .ok (df.rows.length, { store with rows := store.rows ++ sel.rows ++ sel.rows }) :=
    (ingest_batch_core_ok src _ id df.rows.length _).mpr
      ⟨df, sel, n, h4, hb, hi, hs, hw, rfl, rfl⟩
  have hib2 : ingest_batch src { store with rows := store.rows ++ sel.rows } id =
      (.ingested df.rows.length, { store with rows := store.rows ++ sel.rows ++ sel.rows }) := by
    rw [ingest_batch, hcore2]
  simp only [main_loop, hi, if_neg hm, hib1, hib2]

theorem claim_C10_witness :
    (pyInt? "5" = some 5) ∧
    (Value.vInt 5 ∉ ([] : List Value)) ∧
    ((get_batch_data src5 "5").status < 400) ∧
    ((get_batch_data src5 "5").body = some dfOrders1) ∧
    (selectColumns (setColumn (normalizeColumns dfOrders1) "BATCH_ID" (Value.vInt 5))
      ["BATCH_ID", "ORDER_ID", "AMOUNT"] =
      .ok ⟨["BATCH_ID", "ORDER_ID", "AMOUNT"],
           [[Value.vInt 5, Value.vStr "o1", Value.vStr "7.5"]], by decide⟩) ∧
    (store0.writeFails = false) ∧
    (main_loop src5 [] ["5", "5"] store0 =
      { main_loop src5 [] []
          { store0 with rows := store0.rows ++
              [[Value.vInt 5, Value.vStr "o1", Value.vStr "7.5"]] ++
              [[Value.vInt 5, Value.vStr "o1", Value.vStr "7.5"]] } with
        outcomes := ("5", .ingested dfOrders1.rows.length) ::
          ("5", .ingested dfOrders1.rows.length) ::
          (main_loop src5 [] []
            { store0 with rows := store0.rows ++
                [[Value.vInt 5, Value.vStr "o1", Value.vStr "7.5"]] ++
                [[Value.vInt 5, Value.vStr "o1", Value.vStr "7.5"]] }).outcomes }) ∧
    ((main_loop src5 [] ["5", "5"] store0).store.rows =
      [[Value.vInt 5, Value.vStr "o1", Value.vStr "7.5"],
       [Value.vInt 5, Value.vStr "o1", Value.vStr "7.5"]]) :=
  ⟨by decide, by decide, by decide, rfl, rfl, rfl,
   claim_C10_duplicate_ingest src5 [] store0 "5" 5 dfOrders1
     ⟨["BATCH_ID", "ORDER_ID", "AMOUNT"],
      [[Value.vInt 5, Value.vStr "o1", Value.vStr "7.5"]], by decide⟩ []
     (by decide) (by decide) (by decide) rfl rfl rfl,
   by decide⟩

/-- C2, counterexample.  The claim says a second run against the state left
by the first run finds every discovered identifier in the loaded set and
skips it.  Not so when a batch failed in the first run: with catalog `[1]`
and batch 1's data file missing, the first run writes nothing, so the
second run re-attempts batch 1 (outcome `failed`, not `skipped`). -/
theorem claim_C2_counterexample :
    (main_run srcEmpty store0).store = store0 ∧
    (main_run srcEmpty (main_run srcEmpty store0).store).outcomes =
      [("1", .failed (.httpError 404 "Batch data not found"))] ∧
    ¬ (∀ e ∈ (main_run srcEmpty (main_run srcEmpty store0).store).outcomes,
        e.2 = BatchOutcome.skipped) := by decide

/-- C2, amended.  Idempotence holds for runs whose first pass is clean:
if the first run has no fatal error, records no `failed` outcome, and
every ingested batch wrote at least one row, then the second run against
the Table Store state it left behind skips every discovered identifier
(each one's integer `BATCH_ID` is found by `get_loaded_batches`) and
appends zero new rows.  A batch that failed — or ingested an empty
payload — in the first run is re-attempted, not skipped. -/
theorem claim_C2_amended_idempotence (src : BatchSource) (store : TableStore)
    (hfat : (main_run src store).fatal = none)
    (hnf : ∀ e ∈ (main_run src store).outcomes, ∀ err, e.2 ≠ BatchOutcome.failed err)
    (hpos : ∀ e ∈ (main_run src store).outcomes, ∀ c, e.2 = BatchOutcome.ingested c → 0 < c) :
    main_run src (main_run src store).store =
      ⟨(main_run src store).outcomes.map (fun e => (e.1, BatchOutcome.skipped)),
        (main_run src store).store, none⟩ := by
  cases hrf : store.readFails with
  | true => rw [main_run_readFails src store hrf] at hfat; cases hfat
  | false =>
    cases hgi : get_batch_ids src with
    | error e => rw [main_run_listFail src store hrf e hgi] at hfat; cases hfat
    | ok ids =>
      have hrun1 : main_run src store =
          main_loop src ((store.rows.map batchIdOf).dedup) ids store :=
        main_run_ok src store ids hrf hgi
      rw [hrun1] at hfat hnf hpos ⊢
      obtain ⟨extra, hs2⟩ :=
        main_loop_store src ((store.rows.map batchIdOf).dedup) ids store
      have hrf2 : (main_loop src ((store.rows.map batchIdOf).dedup) ids store).store.readFails
          = false := by rw [hs2]; exact hrf
      have hrun2 : main_run src (main_loop src ((store.rows.map batchIdOf).dedup) ids store).store =
          main_loop src
            (((main_loop src ((store.rows.map batchIdOf).dedup) ids store).store.rows.map
                batchIdOf).dedup)
            ids (main_loop src ((store.rows.map batchIdOf).dedup) ids store).store :=
        main_run_ok src _ ids hrf2 hgi
      rw [hrun2]
      have hcov := main_loop_covers src ((store.rows.map batchIdOf).dedup) ids store
        hfat hnf hpos
      have hall : ∀ id ∈ ids, ∃ m, pyInt? id = some m ∧
          Value.vInt m ∈
            ((main_loop src ((store.rows.map batchIdOf).dedup) ids store).store.rows.map
              batchIdOf).dedup := by
        intro id hid
        obtain ⟨m, hm, hmem⟩ := hcov id hid
        refine ⟨m, hm, List.mem_dedup.mpr ?_⟩
        rcases hmem with hL | hR
        · have hL' := List.mem_dedup.mp hL
          rw [hs2]
          simp only [List.map_append, List.mem_append]
          exact Or.inl hL'
        · exact hR
      rw [main_loop_all_skip src _ ids _ hall]
      have hallsome : ∀ id ∈ ids, (pyInt? id).isSome := by
        intro id hid
        obtain ⟨m, hm, _⟩ := hall id hid
        rw [hm]
        rfl
      have hfst := (main_loop_complete src ((store.rows.map batchIdOf).dedup) ids store
        hallsome).2
      have houtc : (main_loop src ((store.rows.map batchIdOf).dedup) ids store).outcomes.map
          (fun e => (e.1, BatchOutcome.skipped)) =
          ids.map (fun id => (id, BatchOutcome.skipped)) := by
        rw [show (fun (e : String × BatchOutcome) => (e.1, BatchOutcome.skipped)) =
            ((fun id => (id, BatchOutcome.skipped)) ∘ Prod.fst) from rfl,
          ← List.map_map, hfst]
      rw [houtc]

theorem claim_C2_amended_witness :
    ((main_run srcAll12 store0).fatal = none) ∧
    (∀ e ∈ (main_run srcAll12 store0).outcomes, ∀ err, e.2 ≠ BatchOutcome.failed err) ∧
    (∀ e ∈ (main_run srcAll12 store0).outcomes, ∀ c,
      e.2 = BatchOutcome.ingested c → 0 < c) ∧
    (main_run srcAll12 (main_run srcAll12 store0).store =
      ⟨(main_run srcAll12 store0).outcomes.map (fun e => (e.1, BatchOutcome.skipped)),
        (main_run srcAll12 store0).store, none⟩) ∧
    ((main_run srcAll12 (main_run srcAll12 store0).store).outcomes =
      [("1", BatchOutcome.skipped), ("2", BatchOutcome.skipped)]) := by
  have houts : (main_run srcAll12 store0).outcomes =
      [("1", BatchOutcome.ingested 1), ("2", BatchOutcome.ingested 2)] := by decide
  have hnf : ∀ e ∈ (main_run srcAll12 store0).outcomes, ∀ err,
      e.2 ≠ BatchOutcome.failed err := by
    intro e he err
    rw [houts] at he
    rcases List.mem_cons.mp he with rfl | he
    · simp
    · rcases List.mem_cons.mp he with rfl | he
      · simp
      · cases he
  have hpos : ∀ e ∈ (main_run srcAll12 store0).outcomes, ∀ c,
      e.2 = BatchOutcome.ingested c → 0 < c := by
    intro e he c hc
    rw [houts] at he
    rcases List.mem_cons.mp he with rfl | he
    · simp at hc
      omega
    · rcases List.mem_cons.mp he with rfl | he
      · simp at hc
        omega
      · cases he
  exact ⟨by decide, hnf, hpos,
    claim_C2_amended_idempotence srcAll12 store0 (by decide) hnf hpos, by decide⟩

end ApiDataIngestion
